import Mathlib

/-!
Verification of the BBDD01_V_AGENTES SQL-agent pipeline.

Shallow embedding of the Python modules `tools/bigquery_tools.py`,
`agents/sql_agent.py`, `agents/orchestrator.py` and `agents/loop_runner.py`.
Pure Python functions become Lean functions on `String` / `List Char`;
functions that raise become `Except`-valued functions; values obtained from
the network (BigQuery schemas, query execution) become explicit parameters.
Python strings are modelled as Lean strings with ASCII case conversion.
-/

set_option maxRecDepth 100000

namespace Labia

/-! ## Python character classes (ASCII model) -/

/-- Python `str.isspace` / regex `\s` for the ASCII range. -/
def pyIsSpace (c : Char) : Bool :=
  c = ' ' || c = '\t' || c = '\n' || c = '\x0d' || c = '\x0b' || c = '\x0c'

/-- Regex word character `\w` (ASCII model): letter, digit or underscore. -/
def isWordChar (c : Char) : Bool :=
  ('A' ≤ c && c ≤ 'Z') || ('a' ≤ c && c ≤ 'z') || ('0' ≤ c && c ≤ '9') || c = '_'

/-- ASCII decimal digit, regex `\d`. -/
def isAsciiDigit (c : Char) : Bool := '0' ≤ c && c ≤ '9'

/-- ASCII upper-casing of a character list (Python `str.upper` on ASCII data). -/
def upperChars (l : List Char) : List Char := l.map Char.toUpper

/-- ASCII lower-casing of a character list (Python `str.lower` on ASCII data). -/
def lowerChars (l : List Char) : List Char := l.map Char.toLower

/-! ## Tiny scanners used to model the concrete regexes of the source -/

/-- `matchLit lit l`: consume the literal `lit` at the head of `l`. -/
def matchLit : List Char → List Char → Option (List Char)
  | [], l => some l
  | _ :: _, [] => none
  | p :: ps, c :: cs => if p = c then matchLit ps cs else none

/-- Case-insensitive literal match (the literal is given upper-case). -/
def matchLitCI : List Char → List Char → Option (List Char)
  | [], l => some l
  | _ :: _, [] => none
  | p :: ps, c :: cs => if p = c.toUpper then matchLitCI ps cs else none

/-- Consume a maximal non-empty run of whitespace (regex `\s+`, greedy). -/
def matchWs1 : List Char → Option (List Char)
  | c :: cs => if pyIsSpace c then some (cs.dropWhile pyIsSpace) else none
  | [] => none

/-- Consume exactly `n` ASCII digits (regex `\d{n}`). -/
def matchDigits : Nat → List Char → Option (List Char)
  | 0, l => some l
  | _ + 1, [] => none
  | n + 1, c :: cs => if isAsciiDigit c then matchDigits n cs else none

/-- Does the predicate match at some suffix position of the list? -/
def scanAny (p : List Char → Bool) : List Char → Bool
  | [] => p []
  | c :: t => p (c :: t) || scanAny p t

/-- Substring containment on character lists (Python `needle in hay`). -/
def isSubChain (needle hay : List Char) : Bool :=
  scanAny (fun l => (matchLit needle l).isSome) hay

/-! ## config/settings.py -/

def PROJECT_ID : String := "go-cxb-bcx-data9-dtwsgrp01"

def DATASET : String := "dtwsgr_ds01"

def TABLE_BASE : String := "BBDD_01_LIGHT"

/-- `TABLA_BASE_FQN = f"`{PROJECT_ID}.{DATASET}.{TABLE_BASE}`"` -/
def TABLA_BASE_FQN : String :=
  "`" ++ PROJECT_ID ++ "." ++ DATASET ++ "." ++ TABLE_BASE ++ "`"

def LIMIT_DEFAULT : Int := 200

def FORBIDDEN_KEYWORDS : List String :=
  ["INSERT", "UPDATE", "DELETE", "MERGE", "CREATE", "DROP", "ALTER",
   "TRUNCATE", "GRANT", "REVOKE", "BEGIN", "COMMIT", "ROLLBACK"]

def DISALLOW_SELECT_STAR : Bool := true

/-! ## tools/bigquery_tools.py — guardrails -/

/-- `_SELECT_WITH_RE = ^\s*(SELECT|WITH)\b` (IGNORECASE), used with `.search`
on the whole text; anchored at the start since MULTILINE is off. -/
def selectWithOk (sql : String) : Bool :=
  let t := sql.data.dropWhile pyIsSpace
  let kwOk : List Char → Bool := fun kw =>
    match matchLitCI kw t with
    | some rest =>
      match rest with
      | [] => true
      | c :: _ => !isWordChar c
    | none => false
  kwOk "SELECT".data || kwOk "WITH".data

/-- `any(kw in sql.upper() for kw in FORBIDDEN_KEYWORDS)` — plain substring
containment on the upper-cased text. -/
def containsForbidden (sql : String) : Bool :=
  FORBIDDEN_KEYWORDS.any (fun kw => isSubChain kw.data (upperChars sql.data))

/-- `re.search(r"select\s+\*", sql, re.IGNORECASE)`. -/
def hasSelectStar (sql : String) : Bool :=
  scanAny
    (fun l =>
      ((matchLitCI "SELECT".data l).bind (fun r => (matchWs1 r).bind
        (matchLit ['*']))).isSome)
    sql.data

/-- Embedding of `validate_sql_readonly` (bigquery_tools.py).  Raising
`ValueError(msg)` is modelled as `.error msg`. -/
def validate_sql_readonly (sql : String) : Except String Unit :=
  if !selectWithOk sql then
    .error "Solo se permiten consultas de lectura (SELECT/WITH)."
  else if containsForbidden sql then
    .error "Operación no permitida (DML/DDL detectado)."
  else if DISALLOW_SELECT_STAR && hasSelectStar sql then
    .error "SELECT * no permitido. Enumera columnas explícitamente."
  else
    .ok ()

/-! Spec-side definition for C1 (refinement comparison): a *whole-token*,
case-insensitive occurrence of a keyword, as the claim words it: the keyword
appears with no word character immediately before or after it. -/

/-- Is the previous character a token boundary (start of text or non-word)? -/
def boundaryBefore : Option Char → Bool
  | none => true
  | some p => !isWordChar p

/-- Scan for an upper-case keyword occurring as a whole token; `prev` is the
character just before the current position (none at the start). -/
def wholeTokenScan (kw : List Char) : Option Char → List Char → Bool
  | _, [] => false
  | prev, c :: t =>
    (boundaryBefore prev &&
      (match matchLitCI kw (c :: t) with
       | some rest =>
         match rest with
         | [] => true
         | r :: _ => !isWordChar r
       | none => false)) ||
    wholeTokenScan kw (some c) t

/-- Spec-side: `kw` occurs in `sql` as a case-insensitive whole token. -/
def containsWholeToken (kw sql : String) : Bool :=
  wholeTokenScan kw.data none sql.data

def c1sql : String :=
  "SELECT CREATED FROM `go-cxb-bcx-data9-dtwsgrp01.dtwsgr_ds01.BBDD_01_LIGHT`"

/-! ## agents/sql_agent.py — table identifier resolution -/

/-- Python `str.strip()` (whitespace from both ends). -/
def pyStripWs (s : List Char) : List Char :=
  ((s.dropWhile pyIsSpace).reverse.dropWhile pyIsSpace).reverse

/-- Python `str.strip("x")` for backticks: all leading/trailing backticks. -/
def stripTicks (s : List Char) : List Char :=
  ((s.dropWhile (· = '`')).reverse.dropWhile (· = '`')).reverse

/-- Number of `.` separators in a string. -/
def dotCount (s : String) : Nat := s.data.countP (· = '.')

/-- The normalised raw reference: `t.strip().strip("`")`. -/
def normTableRef (t : String) : String := String.mk (stripTicks (pyStripWs t.data))

def upperStr (s : String) : String := String.mk (upperChars s.data)

def lowerStr (s : String) : String := String.mk (lowerChars s.data)

/-- The placeholder test of `_resolve_table_identifier`:
`"<<" in tt or ">>" in tt or tt.upper() in {"TABLA_BASE_FQN", "<TABLA_BASE_FQN>"}`. -/
def isPlaceholderRef (tt : String) : Bool :=
  isSubChain "<<".data tt.data || isSubChain ">>".data tt.data ||
  upperStr tt = "TABLA_BASE_FQN" || upperStr tt = "<TABLA_BASE_FQN>"

/-- Embedding of `_resolve_table_identifier` (sql_agent.py); a `None` argument
is modelled as the empty string (both are falsy in `if not t`). -/
def _resolve_table_identifier (t : String) : String :=
  if t = "" then TABLA_BASE_FQN
  else
    let tt := normTableRef t
    if isPlaceholderRef tt then TABLA_BASE_FQN
    else
      let tt2 := if dotCount tt = 1 then PROJECT_ID ++ "." ++ tt else tt
      if dotCount tt2 ≠ 2 then TABLA_BASE_FQN
      else "`" ++ tt2 ++ "`"

/-! ## agents/sql_agent.py — MES (period) filters -/

/-- Embedding of `_mes_shortcut_to_sql` (sql_agent.py): each shortcut code
maps to a fixed SQL filter string delegating the date arithmetic to BigQuery
(`FORMAT_DATE`, `DATE_SUB`, `DATE_TRUNC`, `CURRENT_DATE`). -/
def _mes_shortcut_to_sql (code : String) : String :=
  let c := upperStr code
  if c = "LAST_1M" then
    "CAST(MES AS INT64) BETWEEN CAST(FORMAT_DATE('%Y%m', DATE_SUB(CURRENT_DATE(), INTERVAL 1 MONTH)) AS INT64) AND CAST(FORMAT_DATE('%Y%m', CURRENT_DATE()) AS INT64)"
  else if c = "LAST_3M" then
    "CAST(MES AS INT64) BETWEEN CAST(FORMAT_DATE('%Y%m', DATE_SUB(CURRENT_DATE(), INTERVAL 3 MONTH)) AS INT64) AND CAST(FORMAT_DATE('%Y%m', CURRENT_DATE()) AS INT64)"
  else if c = "LAST_12M" then
    "CAST(MES AS INT64) BETWEEN CAST(FORMAT_DATE('%Y%m', DATE_SUB(CURRENT_DATE(), INTERVAL 12 MONTH)) AS INT64) AND CAST(FORMAT_DATE('%Y%m', CURRENT_DATE()) AS INT64)"
  else if c = "YTD" then
    "CAST(MES AS INT64) BETWEEN CAST(FORMAT_DATE('%Y%m', DATE_TRUNC(CURRENT_DATE(), YEAR)) AS INT64) AND CAST(FORMAT_DATE('%Y%m', CURRENT_DATE()) AS INT64)"
  else if c = "MTD" then
    "CAST(MES AS INT64) BETWEEN CAST(FORMAT_DATE('%Y%m', DATE_TRUNC(CURRENT_DATE(), MONTH)) AS INT64) AND CAST(FORMAT_DATE('%Y%m', CURRENT_DATE()) AS INT64)"
  else ""

/-- The `"year"` key of a MES filter dict: an integer or the string `"this"`
(other strings would make `int(y)` raise and are outside the model). -/
inductive YearVal where
  | num (y : Int)
  | thisStr
  deriving DecidableEq, Repr

/-- The value under the `"MES"` key of the plan filters: either a shortcut
string or a dict with optional `type` / `from` / `to` / `year` entries
(a missing key and an explicit `None` value both map to `none`). -/
inductive MesVal where
  | shortcut (s : String)
  | fields (type? : Option String) (fromV toV : Option Int) (yearV : Option YearVal)
  deriving DecidableEq, Repr

/-- Errors raised inside `_build_mes_filter`:  `invalidPeriod v` models
`ValueError("MES fuera de rango YYYYMM: " + str(v))`;  `missingKey` models the
`TypeError` from `int(None)` when a needed key is absent. -/
inductive MesErr where
  | invalidPeriod (v : Int)
  | missingKey
  deriving DecidableEq, Repr

/-- The inner helper `ym_int` of `_build_mes_filter`. -/
def ym_int : Option Int → Except MesErr Int
  | none => .error .missingKey
  | some v =>
    if v < 190001 || v > 299912 then .error (.invalidPeriod v) else .ok v

/-- The literal range filter `f"CAST(MES AS INT64) BETWEEN {y1} AND {y2}"`. -/
def mesBetweenLit (y1 y2 : Int) : String :=
  "CAST(MES AS INT64) BETWEEN " ++ toString y1 ++ " AND " ++ toString y2

/-- Embedding of `_build_mes_filter` (sql_agent.py).  `currentYear` stands for
`datetime.now().year`; `mes` is `filters.get("MES")` with falsy values mapped
to `none` (the empty shortcut string is kept and handled as falsy here). -/
def _build_mes_filter (currentYear : Int) (mes : Option MesVal) :
    Except MesErr (Option String) :=
  match mes with
  | none => .ok none
  | some (.shortcut s) =>
    if s = "" then .ok none
    else
      let r := _mes_shortcut_to_sql s
      .ok (if r = "" then none else some r)
  | some (.fields type? fromV toV yearV) =>
    if type? = some "range_ym" then do
      let y1 ← ym_int fromV
      let y2 ← ym_int toV
      .ok (some (mesBetweenLit y1 y2))
    else if type? = some "between_year" || type? = some "year" then
      match yearV with
      | some (.num y) =>
        .ok (some ("CAST(MES AS INT64) BETWEEN " ++ toString y ++ "01 AND " ++
          toString y ++ "12"))
      | some .thisStr =>
        .ok (some ("CAST(MES AS INT64) BETWEEN " ++ toString currentYear ++
          "01 AND " ++ toString currentYear ++ "12"))
      | none => .error .missingKey
    else if fromV.isSome && toV.isSome then do
      let y1 ← ym_int fromV
      let y2 ← ym_int toV
      .ok (some (mesBetweenLit y1 y2))
    else .ok none

/-! ## Modelled BigQuery date semantics (for C7)

Modelled from the spec: the BigQuery evaluation of the generated period
filter is not part of src/ (the SQL text is executed by BigQuery).  The spec
describes each shortcut as expanding to a closed numeric range over the
YYYYMM-encoded period column relative to the current date; the definitions
below give `CURRENT_DATE()`, `DATE_SUB(..., INTERVAL n MONTH)`,
`DATE_TRUNC(..., YEAR|MONTH)` and `FORMAT_DATE('%Y%m', ...)` their standard
meanings at a fixed current date. -/

/-- A calendar date (proleptic Gregorian), used as the mocked current date. -/
structure PyDate where
  year : Nat
  month : Nat
  day : Nat
  deriving DecidableEq, Repr

def isLeapYear (y : Nat) : Bool := y % 4 = 0 && (y % 100 ≠ 0 || y % 400 = 0)

def daysInMonth (y m : Nat) : Nat :=
  if m = 2 then (if isLeapYear y then 29 else 28)
  else if m = 4 || m = 6 || m = 9 || m = 11 then 30
  else 31

/-- `DATE_SUB(d, INTERVAL k MONTH)`: subtract months, clamping the day to the
last day of the target month. -/
def dateSubMonths (d : PyDate) (k : Nat) : PyDate :=
  let t := d.year * 12 + (d.month - 1) - k
  let y := t / 12
  let m := t % 12 + 1
  ⟨y, m, min d.day (daysInMonth y m)⟩

/-- `DATE_TRUNC(d, YEAR)`. -/
def dateTruncYear (d : PyDate) : PyDate := ⟨d.year, 1, 1⟩

/-- `DATE_TRUNC(d, MONTH)`. -/
def dateTruncMonth (d : PyDate) : PyDate := ⟨d.year, d.month, 1⟩

/-- `CAST(FORMAT_DATE('%Y%m', d) AS INT64)`: the YYYYMM number of a date. -/
def ymNum (d : PyDate) : Nat := d.year * 100 + d.month

/-- Digits-only string to number (for literal bounds such as `202402`). -/
def natOfDigits (s : String) : Nat :=
  s.data.foldl (fun n c => n * 10 + (c.toNat - 48)) 0

/-- Modelled from the spec: evaluate one bound expression of the generated
period filter at the given current date. -/
def evalPeriodExpr (today : PyDate) (e : String) : Option Nat :=
  if e = "CAST(FORMAT_DATE('%Y%m', CURRENT_DATE()) AS INT64)" then
    some (ymNum today)
  else if e = "CAST(FORMAT_DATE('%Y%m', DATE_SUB(CURRENT_DATE(), INTERVAL 1 MONTH)) AS INT64)" then
    some (ymNum (dateSubMonths today 1))
  else if e = "CAST(FORMAT_DATE('%Y%m', DATE_SUB(CURRENT_DATE(), INTERVAL 3 MONTH)) AS INT64)" then
    some (ymNum (dateSubMonths today 3))
  else if e = "CAST(FORMAT_DATE('%Y%m', DATE_SUB(CURRENT_DATE(), INTERVAL 12 MONTH)) AS INT64)" then
    some (ymNum (dateSubMonths today 12))
  else if e = "CAST(FORMAT_DATE('%Y%m', DATE_TRUNC(CURRENT_DATE(), YEAR)) AS INT64)" then
    some (ymNum (dateTruncYear today))
  else if e = "CAST(FORMAT_DATE('%Y%m', DATE_TRUNC(CURRENT_DATE(), MONTH)) AS INT64)" then
    some (ymNum (dateTruncMonth today))
  else if e ≠ "" && e.data.all isAsciiDigit then
    some (natOfDigits e)
  else none

/-- Split a character list at the first occurrence of a separator. -/
def breakOnSep (sep : List Char) : List Char → Option (List Char × List Char)
  | [] => none
  | c :: t =>
    match matchLit sep (c :: t) with
    | some rest => some ([], rest)
    | none => (breakOnSep sep t).map (fun p => (c :: p.1, p.2))

/-- Modelled from the spec: the closed numeric range denoted by a generated
`CAST(MES AS INT64) BETWEEN lo AND hi` filter at the given current date
(the filter must split into exactly two bound expressions). -/
def evalMesFilter (today : PyDate) (s : String) : Option (Nat × Nat) :=
  match matchLit "CAST(MES AS INT64) BETWEEN ".data s.data with
  | none => none
  | some rest =>
    match breakOnSep " AND ".data rest with
    | some (e1, e2) =>
      if (breakOnSep " AND ".data e2).isSome then none
      else
        match evalPeriodExpr today (String.mk e1), evalPeriodExpr today (String.mk e2) with
        | some lo, some hi => some (lo, hi)
        | _, _ => none
    | none => none

/-! ## agents/sql_agent.py — metric resolution -/

/-- `re.sub(r";+", " ", m)`: each maximal run of semicolons becomes one
space.  `prevSemi` records whether the previous character was a semicolon. -/
def squashSemisAux : Bool → List Char → List Char
  | _, [] => []
  | prevSemi, c :: t =>
    if c = ';' then
      if prevSemi then squashSemisAux true t
      else ' ' :: squashSemisAux true t
    else c :: squashSemisAux false t

def squashSemis (l : List Char) : List Char := squashSemisAux false l

/-- The metric token after `m.strip()` and the semicolon substitution. -/
def processedMetricToken (m : String) : String :=
  String.mk (squashSemis (pyStripWs m.data))

def isIdentStart (c : Char) : Bool :=
  ('A' ≤ c && c ≤ 'Z') || ('a' ≤ c && c ≤ 'z') || c = '_'

/-- `re.match(r"^[A-Za-z_][A-Za-z0-9_]*$", s)`. -/
def isIdentChars (s : String) : Bool :=
  match s.data with
  | [] => false
  | c :: t => isIdentStart c && t.all isWordChar

/-- Embedding of `_quote_ident` (sql_agent.py). -/
def _quote_ident (name : String) : String :=
  if name.data = [] then name
  else if (match name.data with | c :: _ => c = '`' | [] => false) &&
      (match name.data.getLast? with | some c => c = '`' | none => false) then
    name
  else if isIdentChars name then "`" ++ name ++ "`"
  else name

/-- Generic scanner carrying the previous character (for `\b` boundaries). -/
def scanAnyPrev (p : Option Char → List Char → Bool) :
    Option Char → List Char → Bool
  | prev, [] => p prev []
  | prev, c :: t => p prev (c :: t) || scanAnyPrev p (some c) t

/-- `re.search(r"\bAS\s+[A-Za-z_][A-Za-z0-9_]*\b", expr, re.IGNORECASE)`:
the trailing `\b` always holds after a maximal identifier run. -/
def hasAsAlias (s : String) : Bool :=
  scanAnyPrev
    (fun prev l =>
      boundaryBefore prev &&
        (match (matchLitCI "AS".data l).bind matchWs1 with
         | some (c :: _) => isIdentStart c
         | _ => false))
    none s.data

/-- The expression test of `_resolve_metric_expr`: a parenthesis or space in
`m`, or a regex hit on the character class of plus, minus, slash, star. -/
def hasExprMark (m : String) : Bool :=
  m.data.any (fun c =>
    c = '(' || c = ' ' || c = '+' || c = '-' || c = '/' || c = '*')

/-- Python `f"'{s}'"`. -/
def aq (s : String) : String := "'" ++ s ++ "'"

/-- Embedding of `_resolve_metric_expr` (sql_agent.py).  `metricsMap` is the
`metrics` mapping of metrics.yaml, modelled as name ↦ expr (entries that are
not dicts or lack `expr` are outside the model); the appended notes are
returned alongside the expression. -/
def _resolve_metric_expr (m : String) (metricsMap : List (String × String)) :
    String × List String :=
  let m1 := processedMetricToken m
  if containsWholeToken "AS" m1 then (m1, [])
  else
    match metricsMap.lookup m1 with
    | some e =>
      let e1 := String.mk (pyStripWs e.data)
      let expr := if hasAsAlias e1 then e1 else e1 ++ " AS " ++ m1
      (expr, ["Métrica " ++ aq m1 ++ " resuelta vía metrics.yaml."])
    | none =>
      if hasExprMark m1 then (m1, [])
      else (_quote_ident m1 ++ " AS " ++ m1, [])

/-! ## agents/sql_agent.py — dimension resolution (with a difflib model) -/

/-- Embedding of `_ci_equal` (strip then upper on both sides). -/
def _ci_equal (a b : String) : Bool :=
  upperStr (String.mk (pyStripWs a.data)) = upperStr (String.mk (pyStripWs b.data))

def AUTO_FUZZY_DIM_MATCH : Bool := true

def SUGGESTION_TOP_N : Nat := 3

/-- The static synonym table `SYNONYMS` of sql_agent.py. -/
def SYNONYMS : List (String × List String) :=
  [("SECTOR_ESTRATEGICO",
    ["SECTOR_COV19", "CALIFICACION_GRUPO", "COD_CNAE", "DESC_CNAE"]),
   ("SECTOR",
    ["SECTOR_COV19", "CALIFICACION_GRUPO", "COD_CNAE", "DESC_CNAE"])]

/-- Length of the common run at the head of two lists. -/
def runLen : List Char → List Char → Nat
  | a :: as, b :: bs => if a = b then runLen as bs + 1 else 0
  | _, _ => 0

/-- `SequenceMatcher.find_longest_match` (no junk for these short strings):
the longest matching block, earliest in `a`, then earliest in `b`. -/
def findLongestMatch (a b : List Char) : Nat × Nat × Nat :=
  ((List.range a.length).flatMap (fun i =>
    (List.range b.length).map (fun j => (i, j, runLen (a.drop i) (b.drop j))))).foldl
    (fun acc c => if c.2.2 > acc.2.2 then c else acc) (0, 0, 0)

/-- Total size of the matching blocks (`get_matching_blocks`), fuel-bounded
recursion on the flanks of each longest match. -/
def matchTotalF : Nat → List Char → List Char → Nat
  | 0, _, _ => 0
  | fuel + 1, a, b =>
    let r := findLongestMatch a b
    if r.2.2 = 0 then 0
    else
      matchTotalF fuel (a.take r.1) (b.take r.2.1) + r.2.2 +
        matchTotalF fuel (a.drop (r.1 + r.2.2)) (b.drop (r.2.1 + r.2.2))

def matchTotal (a b : List Char) : Nat :=
  matchTotalF (a.length + b.length + 1) a b

/-- `difflib._calculate_ratio`, with floats modelled as exact rationals. -/
def calcRatio (m len : Nat) : Rat :=
  if len = 0 then 1 else (2 * m : Rat) / (len : Rat)

def seqRatio (a b : List Char) : Rat := calcRatio (matchTotal a b) (a.length + b.length)

/-- `quick_ratio`: multiset intersection of the characters. -/
def multisetInterCount (a b : List Char) : Nat :=
  a.dedup.foldl (fun acc c => acc + min (a.count c) (b.count c)) 0

def quickRatio (a b : List Char) : Rat :=
  calcRatio (multisetInterCount a b) (a.length + b.length)

def realQuickRatio (a b : List Char) : Rat :=
  calcRatio (min a.length b.length) (a.length + b.length)

/-- Descending tuple order on `(ratio, string)` (Python tuple comparison,
strings by code points). -/
def tupleGt (p q : Rat × String) : Bool :=
  p.1 > q.1 || (p.1 = q.1 && decide (q.2 < p.2))

/-- Stable insertion into a descending list. -/
def insertDesc (x : Rat × String) : List (Rat × String) → List (Rat × String)
  | [] => [x]
  | y :: t => if tupleGt x y then x :: y :: t else y :: insertDesc x t

def sortDesc (l : List (Rat × String)) : List (Rat × String) :=
  l.foldl (fun acc x => insertDesc x acc) []

/-- `heapq.nlargest` on scored candidates = stable descending sort, first n. -/
def nlargest (n : Nat) (l : List (Rat × String)) : List (Rat × String) :=
  (sortDesc l).take n

/-- Embedding of `difflib.get_close_matches(word, possibilities, n)` with the
default cutoff 0.6 (floats as exact rationals). -/
def get_close_matches (word : String) (possibilities : List String) (n : Nat) :
    List String :=
  let cutoff : Rat := 6 / 10
  let result := possibilities.filterMap (fun x =>
    let a := x.data
    let b := word.data
    if realQuickRatio a b ≥ cutoff && quickRatio a b ≥ cutoff &&
        seqRatio a b ≥ cutoff then
      some (seqRatio a b, x)
    else none)
  (nlargest n result).map (·.2)

/-- The synonym loop of `_resolve_dim`: for each candidate synonym, first an
exact then a case-insensitive match against the live columns. -/
def findSynMatch (dim : String) (syns cols : List String) :
    Option (String × Option String) :=
  match syns with
  | [] => none
  | syn :: rest =>
    if syn ∈ cols then
      some (syn, some ("Dimensión " ++ aq dim ++ " mapeada a sinónimo " ++
        aq syn ++ "."))
    else
      match cols.find? (fun c => _ci_equal syn c) with
      | some c =>
        some (c, some ("Dimensión " ++ aq dim ++ " mapeada a sinónimo " ++
          aq c ++ "."))
      | none => findSynMatch dim rest cols

/-- Embedding of `_resolve_dim` (sql_agent.py).  The raised
`ValueError(f"Dimensión no encontrada: ... ¿Quizá quisiste: ...?")` is
modelled as a structured error carrying the dimension and the suggested
close matches. -/
def _resolve_dim (dim : String) (cols : List String) :
    Except (String × List String) (String × Option String) :=
  if dim ∈ cols then .ok (dim, none)
  else
    match cols.find? (fun c => _ci_equal dim c) with
    | some c => .ok (c, none)
    | none =>
      match findSynMatch dim ((SYNONYMS.lookup dim).getD []) cols with
      | some r => .ok r
      | none =>
        if AUTO_FUZZY_DIM_MATCH then
          match get_close_matches dim cols 1 with
          | s :: _ =>
            .ok (s, some ("Dimensión " ++ aq dim ++ " auto-resuelta a " ++
              aq s ++ " (closest match)."))
          | [] => .error (dim, get_close_matches dim cols SUGGESTION_TOP_N)
        else .error (dim, get_close_matches dim cols SUGGESTION_TOP_N)

/-! ## agents/sql_agent.py — general filters -/

/-- A Python literal reachable in `_escape_literal` (floats outside model). -/
inductive PyLit where
  | none_
  | int (n : Int)
  | str (s : String)
  deriving DecidableEq, Repr

/-- Double every single quote (Python `s.replace("'", "''")`). -/
def escQuotes : List Char → List Char
  | [] => []
  | c :: t => if c = '\'' then '\'' :: '\'' :: escQuotes t else c :: escQuotes t

/-- Embedding of `_escape_literal` (sql_agent.py). -/
def _escape_literal : PyLit → String
  | .none_ => "NULL"
  | .int n => toString n
  | .str s => "'" ++ String.mk (escQuotes s.data) ++ "'"

/-- The plan's `filters` dict as far as `_build_extra_where` and
`_build_mes_filter` read it.  `inF` models the `"in"` key; a `none` value
stands for a non-list entry (skipped by the code). -/
structure Filters where
  mes : Option MesVal
  whereRaw : Option String
  eq : List (String × PyLit)
  inF : List (String × Option (List PyLit))
  like : List (String × PyLit)
  ilike : List (String × PyLit)

/-- `col in cols or any(col.lower() == c.lower() for c in cols)`. -/
def colKnown (col : String) (cols : List String) : Bool :=
  col ∈ cols || cols.any (fun c => lowerStr col = lowerStr c)

/-- Python `", ".join` / general separator join. -/
def joinSep (sep : String) : List String → String
  | [] => ""
  | [x] => x
  | x :: y :: t => x ++ sep ++ joinSep sep (y :: t)

/-- Embedding of `_build_extra_where` (sql_agent.py). -/
def _build_extra_where (f : Filters) (cols : List String) : List String :=
  let whereParts :=
    match f.whereRaw with
    | some w =>
      if String.mk (pyStripWs w.data) ≠ "" then
        ["(" ++ String.mk (pyStripWs w.data) ++ ")"]
      else []
    | none => []
  let eqParts := f.eq.filterMap (fun p =>
    if colKnown p.1 cols then
      some (_quote_ident p.1 ++ " = " ++ _escape_literal p.2)
    else none)
  let inParts := f.inF.filterMap (fun p =>
    match p.2 with
    | none => none
    | some vs =>
      if colKnown p.1 cols then
        some (_quote_ident p.1 ++ " IN (" ++
          joinSep ", " (vs.map _escape_literal) ++ ")")
      else none)
  let likeParts := f.like.filterMap (fun p =>
    if colKnown p.1 cols then
      some (_quote_ident p.1 ++ " LIKE " ++ _escape_literal p.2)
    else none)
  let ilikeParts := f.ilike.filterMap (fun p =>
    if colKnown p.1 cols then
      some ("LOWER(" ++ _quote_ident p.1 ++ ") LIKE LOWER(" ++
        _escape_literal p.2 ++ ")")
    else none)
  whereParts ++ eqParts ++ inParts ++ likeParts ++ ilikeParts

/-- Spec-side definition for C10 (refinement comparison): the same filters
with every equality/membership/pattern entry whose column matches no live
column removed. -/
def dropUnknownFilters (f : Filters) (cols : List String) : Filters :=
  { f with
    eq := f.eq.filter (fun p => colKnown p.1 cols)
    inF := f.inF.filter (fun p => colKnown p.1 cols)
    like := f.like.filter (fun p => colKnown p.1 cols)
    ilike := f.ilike.filter (fun p => colKnown p.1 cols) }

/-! ## agents/orchestrator.py — ordering normalisation -/

/-- One entry of the plan's `ordering` list (`Ordering(by=..., dir=...)`);
the `by` field is called `byCol` here since `by` is reserved in Lean. -/
structure OrderingItem where
  byCol : String
  dir : String
  deriving DecidableEq, Repr

/-- `re.sub(r'\s+AS\s+\w+$', '', m, flags=re.I)`: drop a trailing
whitespace+AS+whitespace+identifier suffix, if present. -/
def stripAsAliasEnd (m : String) : String :=
  let r := m.data.reverse
  let w := r.takeWhile isWordChar
  if w = [] then m
  else
    let r1 := r.drop w.length
    let s2 := r1.takeWhile pyIsSpace
    if s2 = [] then m
    else
      match r1.drop s2.length with
      | s :: a :: rest =>
        if (s = 'S' || s = 's') && (a = 'A' || a = 'a') then
          let s1 := rest.takeWhile pyIsSpace
          if s1 = [] then m else String.mk (rest.drop s1.length).reverse
        else m
      | _ => m

/-- Embedding of `_normalize_ordering` (orchestrator.py). -/
def _normalize_ordering (ordering : List OrderingItem) (metrics : List String) :
    List OrderingItem :=
  match ordering with
  | [] =>
    match metrics with
    | [] => []
    | m :: _ => [⟨stripAsAliasEnd m, "DESC"⟩]
  | _ :: _ =>
    ordering.filterMap (fun o =>
      let b := String.mk (pyStripWs o.byCol.data)
      let d0 := upperStr (if o.dir = "" then "DESC" else o.dir)
      let d := if d0 ≠ "ASC" && d0 ≠ "DESC" then "DESC" else d0
      if b ≠ "" then some ⟨b, d⟩ else none)

/-- Step 7 of `build_sql_from_plan`: render each ordering pair as
`f"{by} {dir_}"`, skipping falsy columns. -/
def buildOrderParts (ordering : List OrderingItem) : List String :=
  ordering.filterMap (fun o =>
    if o.byCol = "" then none
    else some (o.byCol ++ " " ++ upperStr (if o.dir = "" then "DESC" else o.dir)))

/-- The ORDER BY fragment of the assembled statement. -/
def orderSqlOf (parts : List String) : String :=
  match parts with
  | [] => ""
  | _ :: _ => "\nORDER BY " ++ joinSep ", " parts

/-! ## agents/sql_agent.py — build_sql_from_plan -/

/-- The word-token test at one position (case-insensitive keyword with a
`\b` boundary on each side). -/
def wordTokenHere (kw : List Char) (prev : Option Char) (l : List Char) : Bool :=
  boundaryBefore prev &&
    (match matchLitCI kw l with
     | some rest =>
       match rest with
       | [] => true
       | r :: _ => !isWordChar r
     | none => false)

/-- `re.split(r"\bAS\b", expr, flags=re.I)[0]`: the prefix before the first
whole-token AS. -/
def beforeWordAS : Option Char → List Char → List Char
  | _, [] => []
  | prev, c :: t =>
    if wordTokenHere "AS".data prev (c :: t) then []
    else c :: beforeWordAS (some c) t

/-- `re.findall(r"[A-Za-z_][A-Za-z0-9_]*", s)`: the identifier tokens.
`cur` is the (reversed) token currently being read; a token starts at an
identifier-start character and extends over word characters (a character that
ends a token is not a word character, hence cannot start the next one and is
consumed). -/
def identTokensAux (cur : List Char) : List Char → List (List Char)
  | [] => if cur.isEmpty then [] else [cur.reverse]
  | c :: t =>
    if cur.isEmpty then
      if isIdentStart c then identTokensAux [c] t
      else identTokensAux [] t
    else
      if isWordChar c then identTokensAux (c :: cur) t
      else cur.reverse :: identTokensAux [] t

def identTokens (l : List Char) : List (List Char) := identTokensAux [] l

/-- The `ignore` set of `_cols_referenced_in_metric`. -/
def METRIC_IGNORE : List String :=
  ["SUM", "AVG", "COUNT", "MIN", "MAX", "CAST", "SAFE_CAST", "DISTINCT",
   "CASE", "WHEN", "THEN", "ELSE", "END", "NULL", "IF", "AND", "OR", "NOT",
   "DATE", "DATETIME", "TIMESTAMP", "EXTRACT", "DATE_TRUNC", "COALESCE",
   "ROUND", "FLOOR", "CEIL", "POWER", "ABS", "TRUE", "FALSE", "OVER",
   "PARTITION", "BY"]

/-- Embedding of `_cols_referenced_in_metric` (sql_agent.py). -/
def _cols_referenced_in_metric (expr : String) : List String :=
  ((identTokens (beforeWordAS none expr.data)).map String.mk).filter
    (fun t => !(METRIC_IGNORE.contains (upperStr t)))

/-- Embedding of `_quote_fqn` (sql_agent.py):
`len(s.split(".")) == 3` is `dotCount s = 2`. -/
def _quote_fqn (fqn : String) : String :=
  let s := String.mk (pyStripWs fqn.data)
  if (match s.data with | c :: _ => c = '`' | [] => false) &&
      (match s.data.getLast? with | some c => c = '`' | none => false) then s
  else if dotCount s = 2 then "`" ++ s ++ "`"
  else s

/-- The plan fields read by `build_sql_from_plan` (orchestrator `Plan`). -/
structure Plan where
  tables : List String
  metrics : List String
  dimensions : List String
  filters : Filters
  ordering : List OrderingItem
  limit : Int

/-- The exceptions `build_sql_from_plan` can raise. -/
inductive BuildErr where
  | dimNotFound (dim : String) (suggestions : List String)
  | metricColNotFound (ref : String) (suggestions : List String)
  | nothingToSelect
  | mes (e : MesErr)
  deriving DecidableEq, Repr

/-- The dataclass `SqlBuildResult` of sql_agent.py. -/
structure SqlBuildResult where
  sql : String
  used_table : String
  dims : List String
  metrics : List String
  order_by : List String
  limit : Int
  notes : List String

/-- Step 1 loop of `build_sql_from_plan`: resolve every dimension, collecting
resolved names and notes; the first failure aborts the build. -/
def resolveDims (dims cols : List String) :
    Except BuildErr (List String × List String) :=
  match dims with
  | [] => .ok ([], [])
  | d :: rest =>
    match _resolve_dim d cols with
    | .error e => .error (.dimNotFound e.1 e.2)
    | .ok (r, note) =>
      match resolveDims rest cols with
      | .error e => .error e
      | .ok (rs, ns) =>
        .ok (r :: rs, (match note with | some n => [n] | none => []) ++ ns)

/-- The per-metric column check of step 2: the first referenced identifier
missing from the live columns raises. -/
def checkMetricRefs (expr : String) (cols : List String) :
    Except BuildErr Unit :=
  match (_cols_referenced_in_metric expr).find? (fun ref =>
      !(cols.contains ref) && !(cols.any (fun c => _ci_equal ref c)) &&
        isIdentChars ref) with
  | some ref =>
    .error (.metricColNotFound ref (get_close_matches ref cols SUGGESTION_TOP_N))
  | none => .ok ()

/-- Step 2 loop of `build_sql_from_plan`. -/
def resolveMetrics (ms : List String) (cfg : List (String × String))
    (cols : List String) : Except BuildErr (List String × List String) :=
  match ms with
  | [] => .ok ([], [])
  | m :: rest =>
    let r := _resolve_metric_expr m cfg
    match checkMetricRefs r.1 cols with
    | .error e => .error e
    | .ok _ =>
      match resolveMetrics rest cfg cols with
      | .error e => .error e
      | .ok (es, ns) => .ok (r.1 :: es, r.2 ++ ns)

/-- The constant traceability note of `build_sql_from_plan` (from
`AGENT_MODELS` / `AGENT_TEMPERATURES` in settings.py). -/
def configNote : String :=
  "sql_agent config → model='gemini-2.5-pro', temperature=0.1"

/-- Embedding of `build_sql_from_plan` (sql_agent.py).  `currentYear` stands
for `datetime.now().year`, `cols` for `list_columns(tbl)` (a BigQuery call)
and `metricsCfg` for the metrics.yaml mapping.  The final
`f"\nSELECT ...\n".strip()` always removes exactly the wrapping newlines
(the body starts with the literal `SELECT` and ends with the digits of the
limit), so the assembled string is written directly. -/
def build_sql_from_plan (currentYear : Int) (plan : Plan)
    (tableFqn : Option String) (cols : List String)
    (metricsCfg : List (String × String)) : Except BuildErr SqlBuildResult :=
  let planTable := match plan.tables with | [] => "" | t :: _ => t
  let rawT := match tableFqn with
    | some s => if s ≠ "" then s else planTable
    | none => planTable
  let ident := _resolve_table_identifier rawT
  let tbl := _quote_fqn (String.mk (pyStripWs ident.data))
  match resolveDims plan.dimensions cols with
  | .error e => .error e
  | .ok (dims, dimNotes) =>
    match resolveMetrics plan.metrics metricsCfg cols with
    | .error e => .error e
    | .ok (metricsExprs, metNotes) =>
      if dims.isEmpty && metricsExprs.isEmpty then .error .nothingToSelect
      else
        match _build_mes_filter currentYear plan.filters.mes with
        | .error e => .error (.mes e)
        | .ok mesF =>
          let lastAvailable :=
            match plan.filters.mes with
            | some (.shortcut s) => upperStr s == "LAST_AVAILABLE"
            | _ => false
          let whereClauses :=
            (match mesF with | some s => [s] | none => []) ++
            (if lastAvailable then
              ["CAST(MES AS INT64) = (SELECT MAX(CAST(MES AS INT64)) FROM " ++
                tbl ++ ")"]
            else []) ++
            _build_extra_where plan.filters cols
          let dimsQuoted := dims.map _quote_ident
          let selectSql := joinSep ",\n  " (dimsQuoted ++ metricsExprs)
          let whereSql :=
            match whereClauses with
            | [] => ""
            | _ :: _ => "\nWHERE " ++ joinSep " AND " whereClauses
          let groupSql :=
            match dimsQuoted with
            | [] => ""
            | _ :: _ => "\nGROUP BY " ++ joinSep ", " dimsQuoted
          let orderParts := buildOrderParts plan.ordering
          let orderSql := orderSqlOf orderParts
          let lim := if plan.limit ≠ 0 then plan.limit else LIMIT_DEFAULT
          let limitSql := "\nLIMIT " ++ toString lim
          let sql := "SELECT\n  " ++ selectSql ++ "\nFROM " ++ tbl ++
            whereSql ++ groupSql ++ orderSql ++ limitSql
          .ok ⟨sql, tbl, dims, metricsExprs, orderParts, lim,
            configNote :: (dimNotes ++ metNotes)⟩

/-- Projection used to state closed facts about a successful build. -/
def buildOk (x : Except BuildErr SqlBuildResult) : SqlBuildResult :=
  match x with
  | .ok r => r
  | .error _ => ⟨"", "", [], [], [], 0, []⟩

/-! ## agents/loop_runner.py — cost fallback of `ChatRunner.answer` -/

/-- The match of `r"CAST\(MES AS INT64\)\s+BETWEEN\s+\d{6}\s+AND\s+\d{6}"`
at the head of the list, returning the rest after the match. -/
def mesRangeAt (l : List Char) : Option (List Char) :=
  (matchLit "CAST(MES AS INT64)".data l).bind fun r1 =>
  (matchWs1 r1).bind fun r2 =>
  (matchLit "BETWEEN".data r2).bind fun r3 =>
  (matchWs1 r3).bind fun r4 =>
  (matchDigits 6 r4).bind fun r5 =>
  (matchWs1 r5).bind fun r6 =>
  (matchLit "AND".data r6).bind fun r7 =>
  (matchWs1 r7).bind fun r8 =>
  matchDigits 6 r8

/-- `re.search` of the range pattern. -/
def hasMesRange (l : List Char) : Bool :=
  scanAny (fun x => (mesRangeAt x).isSome) l

/-- `re.sub` of the range pattern: replace every non-overlapping match,
left to right (fuel-bounded; the fuel `length + 1` always suffices since
every step consumes at least one character). -/
def subMesRangeF (repl : List Char) : Nat → List Char → List Char
  | 0, l => l
  | _ + 1, [] => []
  | fuel + 1, c :: t =>
    match mesRangeAt (c :: t) with
    | some rest => repl ++ subMesRangeF repl fuel rest
    | none => c :: subMesRangeF repl fuel t

/-- `re.sub(patt, f"CAST(MES AS INT64) = {last_mes}", sql)`. -/
def subMesRange (sql : String) (lastMes : Int) : String :=
  String.mk (subMesRangeF ("CAST(MES AS INT64) = " ++ toString lastMes).data
    (sql.data.length + 1) sql.data)

/-- `sql.rstrip().rstrip(";")`. -/
def cleanSqlEnd (s : String) : String :=
  String.mk (((s.data.reverse.dropWhile pyIsSpace).dropWhile (· = ';')).reverse)

/-- The narrowed fallback statement built in `ChatRunner.answer`: replace the
recognized BETWEEN range by an equality on the maximum period, or append the
equality condition with AND/WHERE (`\bWHERE\b` searched case-insensitively). -/
def fallbackSql (sql : String) (lastMes : Int) : String :=
  if hasMesRange sql.data then subMesRange sql lastMes
  else
    let c := cleanSqlEnd sql
    if containsWholeToken "WHERE" c then
      c ++ " AND CAST(MES AS INT64) = " ++ toString lastMes
    else
      c ++ " WHERE CAST(MES AS INT64) = " ++ toString lastMes

/-- The errors `execute_sql` can raise: `costly` is the RuntimeError from the
dry-run byte threshold (the only class caught by the fallback); `other`
covers the uncaught ValueError / PermissionError guardrail failures. -/
inductive ExecErr where
  | costly (msg : String)
  | other (msg : String)
  deriving DecidableEq, Repr

/-- Truthiness of `_get_last_mes()`s result (`if last_mes:`). -/
def lastMesTruthy : Option Int → Bool
  | some m => m ≠ 0
  | none => false

/-- Embedding of the try/except block of `ChatRunner.answer` (loop_runner.py,
step 2.1).  `exec` stands for `execute_sql` (network call), `lastMes` for
`self._get_last_mes()`; returns the result, the SQL actually used, and the
appended notes. -/
def answer_fallback {α : Type} (exec : String → Except ExecErr α)
    (lastMes : Option Int) (sql : String) :
    Except ExecErr (α × String × List String) :=
  match exec sql with
  | .ok r => .ok (r, sql, [])
  | .error (.other m) => .error (.other m)
  | .error (.costly m) =>
    match lastMes with
    | some lm =>
      if lm ≠ 0 then
        let fb := fallbackSql sql lm
        let note := "Consulta costosa (" ++ m ++ "). Fallback a un solo MES=" ++
          toString lm ++ "."
        match exec fb with
        | .ok r => .ok (r, fb, [note])
        | .error e2 => .error e2
      else .error (.costly m)
    | none => .error (.costly m)

/-- Concrete cost-rejected statement for the C2 counterexample. -/
def c2sql : String :=
  "SELECT\n  SUM(TOTAL_RIESGO) AS RIESGO\nFROM " ++ TABLA_BASE_FQN ++
    "\nWHERE CAST(MES AS INT64) BETWEEN 202301 AND 202312\nLIMIT 200"

/-- Oracle for the C2 counterexample: every statement is too costly; the
original statement is refused with message A, any other (in particular the
narrowed retry) with message B. -/
def c2exec : String → Except ExecErr Unit := fun s =>
  if s = c2sql then .error (.costly "A") else .error (.costly "B")

/-- Concrete plan for the C3 counterexample: one metric, limit 5000. -/
def c3plan : Plan :=
  ⟨[], ["TOTAL_RIESGO"], [], ⟨none, none, [], [], [], []⟩, [], 5000⟩

/-! # Theorems -/

/-! ## Helper lemmas -/

theorem squashSemisAux_no_semi (b : Bool) (l : List Char) :
    ';' ∉ squashSemisAux b l := by
  induction l generalizing b with
  | nil => simp [squashSemisAux]
  | cons c t ih =>
    intro hmem
    by_cases hc : c = ';'
    · cases b with
      | true =>
        have he : squashSemisAux true (c :: t) = squashSemisAux true t := by
          simp [squashSemisAux, hc]
        rw [he] at hmem
        exact ih true hmem
      | false =>
        have he : squashSemisAux false (c :: t) = ' ' :: squashSemisAux true t := by
          simp [squashSemisAux, hc]
        rw [he] at hmem
        rcases List.mem_cons.mp hmem with h | h
        · exact absurd h (by decide)
        · exact ih true h
    · have he : squashSemisAux b (c :: t) = c :: squashSemisAux false t := by
        cases b <;> simp [squashSemisAux, hc]
      rw [he] at hmem
      rcases List.mem_cons.mp hmem with h | h
      · exact hc h.symm
      · exact ih false h

theorem mem_pyStripWs {x : Char} {l : List Char} (h : x ∈ pyStripWs l) :
    x ∈ l := by
  simp only [pyStripWs, List.mem_reverse] at h
  have h1 := (List.dropWhile_sublist _).subset h
  rw [List.mem_reverse] at h1
  exact (List.dropWhile_sublist _).subset h1

theorem quote_ident_no_semi {s : String} (h : ';' ∉ s.data) :
    ';' ∉ (_quote_ident s).data := by
  unfold _quote_ident
  split
  · exact h
  · split
    · exact h
    · split
      · simpa [String.data_append] using h
      · exact h

theorem lookup_mem {k v : String} :
    ∀ {mm : List (String × String)}, mm.lookup k = some v → ∃ p ∈ mm, p.2 = v := by
  intro mm
  induction mm with
  | nil => intro h; simp [List.lookup] at h
  | cons p t ih =>
    intro h
    obtain ⟨k1, v1⟩ := p
    rw [List.lookup] at h
    cases hk : (k == k1) with
    | true =>
      rw [hk] at h
      injection h with hv
      exact ⟨(k1, v1), List.mem_cons_self _ _, hv⟩
    | false =>
      rw [hk] at h
      obtain ⟨q, hq, hv⟩ := ih h
      exact ⟨q, List.mem_cons_of_mem _ hq, hv⟩

theorem findSynMatch_note {dim : String} {syns cols : List String}
    {r : String × Option String} (h : findSynMatch dim syns cols = some r) :
    r.2.isSome := by
  induction syns with
  | nil => simp [findSynMatch] at h
  | cons syn rest ih =>
    rw [findSynMatch] at h
    split at h
    · injection h with h
      subst h
      rfl
    · split at h
      · injection h with h
        subst h
        rfl
      · exact ih h

theorem get_close_matches_len (w : String) (cs : List String) (n : Nat) :
    (get_close_matches w cs n).length ≤ n := by
  unfold get_close_matches nlargest
  simp only [List.length_map, List.length_take]
  exact min_le_left _ _

theorem filterMap_filter_known {α β : Type} (p : α → Bool) (g : α → Option β)
    (h : ∀ x, p x = false → g x = none) :
    ∀ l : List α, (l.filter p).filterMap g = l.filterMap g := by
  intro l
  induction l with
  | nil => rfl
  | cons a t ih =>
    by_cases hp : p a
    · simp [List.filter_cons, hp, List.filterMap_cons, ih]
    · have hga : g a = none := h a (by simpa using hp)
      simp [List.filter_cons, hp, List.filterMap_cons, hga, ih]

/-- C1 (counterexample): the SQL text `SELECT CREATED FROM ...` contains no
forbidden keyword as a case-insensitive whole token (CREATE occurs only inside
the identifier CREATED), yet `validate_sql_readonly` rejects it with the
ForbiddenOperation error — the validator matches substrings, not whole tokens,
so the claim as stated is false. -/
theorem C1_counterexample :
    (FORBIDDEN_KEYWORDS.all (fun kw => !containsWholeToken kw c1sql)) = true ∧
    validate_sql_readonly c1sql =
      .error "Operación no permitida (DML/DDL detectado)." := by
  constructor
  · decide
  · rfl

/-- C1 (amended): the guardrail validator rejects with ForbiddenOperation
exactly the texts whose upper-cased form contains a forbidden keyword as a
*substring* (whole token or not), provided the text first passes the
SELECT/WITH prefix check; a text with no such substring is never rejected
with ForbiddenOperation. -/
theorem C1_amended (sql : String) :
    (selectWithOk sql = true → containsForbidden sql = true →
      validate_sql_readonly sql =
        .error "Operación no permitida (DML/DDL detectado).") ∧
    (containsForbidden sql = false →
      validate_sql_readonly sql ≠
        .error "Operación no permitida (DML/DDL detectado).") := by
  constructor
  · intro h1 h2
    simp [validate_sql_readonly, h1, h2]
  · intro h
    unfold validate_sql_readonly
    split
    · intro hc
      injection hc with hstr
      exact absurd hstr (by decide)
    · rw [h]
      simp only [Bool.false_eq_true, if_false]
      split
      · intro hc
        injection hc with hstr
        exact absurd hstr (by decide)
      · exact fun hc => Except.noConfusion hc

/-- C1 amended, witness: concrete application at `SELECT DROP`. -/
theorem C1_amended_witness :
    validate_sql_readonly "SELECT DROP" =
      .error "Operación no permitida (DML/DDL detectado)." :=
  (C1_amended "SELECT DROP").1 rfl rfl

/-- C4 (counterexample): the raw reference `otra_ds.OTRA_TABLA` is nonempty,
has no placeholder token, and has exactly one separator — so by the claim it
should be replaced with the configured default table.  The code instead
prefixes the configured project and returns the quoted three-part identifier,
which differs from the default. -/
theorem C4_counterexample :
    ("otra_ds.OTRA_TABLA" : String) ≠ "" ∧
    isPlaceholderRef (normTableRef "otra_ds.OTRA_TABLA") = false ∧
    dotCount "otra_ds.OTRA_TABLA" = 1 ∧
    _resolve_table_identifier "otra_ds.OTRA_TABLA" =
      "`go-cxb-bcx-data9-dtwsgrp01.otra_ds.OTRA_TABLA`" ∧
    _resolve_table_identifier "otra_ds.OTRA_TABLA" ≠ TABLA_BASE_FQN := by
  refine ⟨by decide, by decide, by decide, rfl, by decide⟩

/-- C4 (amended): the resolver replaces a raw reference with the configured
default table when it is empty, contains a placeholder token, or — after
prefixing a single-separator reference (`dataset.table`) with the configured
project — does not have exactly two separators; a two-separator reference is
returned backtick-quoted as is, and a one-separator reference is returned
backtick-quoted with the project prefixed. -/
theorem C4_amended (t : String) :
    (t = "" → _resolve_table_identifier t = TABLA_BASE_FQN) ∧
    (t ≠ "" → isPlaceholderRef (normTableRef t) = true →
      _resolve_table_identifier t = TABLA_BASE_FQN) ∧
    (t ≠ "" → isPlaceholderRef (normTableRef t) = false →
      dotCount (normTableRef t) ≠ 1 → dotCount (normTableRef t) ≠ 2 →
      _resolve_table_identifier t = TABLA_BASE_FQN) ∧
    (t ≠ "" → isPlaceholderRef (normTableRef t) = false →
      dotCount (normTableRef t) = 2 →
      _resolve_table_identifier t = "`" ++ normTableRef t ++ "`") ∧
    (t ≠ "" → isPlaceholderRef (normTableRef t) = false →
      dotCount (normTableRef t) = 1 →
      _resolve_table_identifier t =
        "`" ++ (PROJECT_ID ++ "." ++ normTableRef t) ++ "`") := by
  refine ⟨fun h => by simp [_resolve_table_identifier, h], ?_, ?_, ?_, ?_⟩
  · intro h hp
    simp [_resolve_table_identifier, h, hp]
  · intro h hp h1 h2
    simp [_resolve_table_identifier, h, hp, h1, h2]
  · intro h hp h2
    have h1 : dotCount (normTableRef t) ≠ 1 := by omega
    simp [_resolve_table_identifier, h, hp, h1, h2]
  · intro h hp h1
    have hpd : dotCount (PROJECT_ID ++ "." ++ normTableRef t) = 2 := by
      simp only [dotCount, String.data_append, List.countP_append] at h1 ⊢
      have : PROJECT_ID.data.countP (fun c => decide (c = '.')) = 0 := by decide
      simp [this, h1]
    simp [_resolve_table_identifier, h, hp, h1, hpd]

/-- C4 amended, witness: concrete application at a three-part reference. -/
theorem C4_amended_witness :
    _resolve_table_identifier "go-cxb-bcx-data9-dtwsgrp01.dtwsgr_ds01.OTRA" =
      "`" ++ normTableRef "go-cxb-bcx-data9-dtwsgrp01.dtwsgr_ds01.OTRA" ++ "`" :=
  (C4_amended "go-cxb-bcx-data9-dtwsgrp01.dtwsgr_ds01.OTRA").2.2.2.1
    (by decide) (by decide) (by decide)

/-- C7: the `LAST_1M` (last-1-month) shortcut, evaluated with the current date
fixed at 2024-03-15, denotes the closed range [202402, 202403]: the generated
filter evaluates to the same range as the literal filter
`CAST(MES AS INT64) BETWEEN 202402 AND 202403` at that date. -/
theorem C7_last_1m :
    evalMesFilter ⟨2024, 3, 15⟩ (_mes_shortcut_to_sql "LAST_1M") =
      some (202402, 202403) ∧
    evalMesFilter ⟨2024, 3, 15⟩ "CAST(MES AS INT64) BETWEEN 202402 AND 202403" =
      some (202402, 202403) := by
  constructor
  · rfl
  · rfl

/-- C8: an explicit period range filter whose `from` or `to` bound lies
outside 190001–299912 makes the filter builder raise InvalidPeriod (so the
build fails before any SQL statement is produced), and for in-range bounds the
filter renders exactly `CAST(MES AS INT64) BETWEEN <from> AND <to>`. -/
theorem C8_explicit_range (cy y1 y2 : Int) :
    ((y1 < 190001 ∨ y1 > 299912) →
      _build_mes_filter cy
          (some (.fields (some "range_ym") (some y1) (some y2) none)) =
        .error (.invalidPeriod y1)) ∧
    (190001 ≤ y1 → y1 ≤ 299912 → (y2 < 190001 ∨ y2 > 299912) →
      _build_mes_filter cy
          (some (.fields (some "range_ym") (some y1) (some y2) none)) =
        .error (.invalidPeriod y2)) ∧
    (190001 ≤ y1 → y1 ≤ 299912 → 190001 ≤ y2 → y2 ≤ 299912 →
      _build_mes_filter cy
          (some (.fields (some "range_ym") (some y1) (some y2) none)) =
        .ok (some ("CAST(MES AS INT64) BETWEEN " ++ toString y1 ++ " AND " ++
          toString y2))) ∧
    (∀ (plan : Plan) (tf : Option String) (cols : List String)
        (cfg : List (String × String)) (r : SqlBuildResult),
      plan.filters.mes = some (.fields (some "range_ym") (some y1) (some y2) none) →
      (y1 < 190001 ∨ y1 > 299912) →
      build_sql_from_plan cy plan tf cols cfg ≠ .ok r) := by
  refine ⟨?_, ?_, ?_, ?_⟩
  · intro h
    have h1 : (y1 < 190001 || y1 > 299912) = true := by
      rcases h with h | h <;> simp [h]
    simp [_build_mes_filter, ym_int, h1, bind, Except.bind]
  · intro ha hb h
    have h1 : (y1 < 190001 || y1 > 299912) = false := by
      simp; omega
    have h2 : (y2 < 190001 || y2 > 299912) = true := by
      rcases h with h | h <;> simp [h]
    simp [_build_mes_filter, ym_int, h1, h2, bind, Except.bind]
  · intro ha hb hc hd
    have h1 : (y1 < 190001 || y1 > 299912) = false := by
      simp; omega
    have h2 : (y2 < 190001 || y2 > 299912) = false := by
      simp; omega
    simp [_build_mes_filter, ym_int, h1, h2, mesBetweenLit, bind, Except.bind]
  · intro plan tf cols cfg r hm h
    have h1 : (y1 < 190001 || y1 > 299912) = true := by
      rcases h with h | h <;> simp [h]
    have hf : _build_mes_filter cy plan.filters.mes =
        .error (.invalidPeriod y1) := by
      rw [hm]
      simp [_build_mes_filter, ym_int, h1, bind, Except.bind]
    cases hd : resolveDims plan.dimensions cols with
    | error e => simp [build_sql_from_plan, hd]
    | ok pd =>
      obtain ⟨dims, dn⟩ := pd
      cases hmet : resolveMetrics plan.metrics cfg cols with
      | error e => simp [build_sql_from_plan, hd, hmet]
      | ok pm =>
        obtain ⟨mets, mn⟩ := pm
        by_cases hde : (dims.isEmpty && mets.isEmpty) = true
        · simp [build_sql_from_plan, hd, hmet, hde]
        · simp [build_sql_from_plan, hd, hmet, hde, hf]

/-- C8, witness: the out-of-range bound 99999 is rejected with InvalidPeriod
and the in-range pair (202301, 202312) renders the literal BETWEEN filter. -/
theorem C8_explicit_range_witness :
    _build_mes_filter 2024
        (some (.fields (some "range_ym") (some 99999) (some 202312) none)) =
      .error (.invalidPeriod 99999) ∧
    _build_mes_filter 2024
        (some (.fields (some "range_ym") (some 202301) (some 202312) none)) =
      .ok (some ("CAST(MES AS INT64) BETWEEN " ++ toString (202301 : Int) ++
        " AND " ++ toString (202312 : Int))) :=
  ⟨(C8_explicit_range 2024 99999 202312).1 (by omega),
   (C8_explicit_range 2024 202301 202312).2.2.1 (by omega) (by omega) (by omega)
     (by omega)⟩

/-- C5: semicolons are removed from every raw metric token (each run becomes
a space) before any processing branch, so — provided the metric catalog's own
expressions are semicolon-free — the expression contributed to the assembled
SQL by a metric token never contains a semicolon. -/
theorem C5_semicolon_stripping (m : String) (mm : List (String × String)) :
    ';' ∉ (processedMetricToken m).data ∧
    ((∀ p ∈ mm, ';' ∉ p.2.data) →
      ';' ∉ (_resolve_metric_expr m mm).1.data) := by
  have hm : ';' ∉ (processedMetricToken m).data :=
    squashSemisAux_no_semi false (pyStripWs m.data)
  refine ⟨hm, fun hmm => ?_⟩
  by_cases h1 : containsWholeToken "AS" (processedMetricToken m)
  · simpa [_resolve_metric_expr, h1] using hm
  · rcases hl : (mm.lookup (processedMetricToken m)) with _ | e
    · by_cases h2 : hasExprMark (processedMetricToken m)
      · simpa [_resolve_metric_expr, h1, hl, h2] using hm
      · have hq := quote_ident_no_semi hm
        simp only [_resolve_metric_expr, h1, hl, h2, if_false, Bool.false_eq_true]
        simp only [String.data_append, List.mem_append]
        push_neg
        exact ⟨⟨hq, by decide⟩, hm⟩
    · have he : ';' ∉ e.data := by
        obtain ⟨p, hp, hv⟩ := lookup_mem hl
        exact hv ▸ hmm p hp
      have he1 : ';' ∉ (String.mk (pyStripWs e.data)).data := by
        intro hx
        exact he (mem_pyStripWs hx)
      simp only [_resolve_metric_expr, h1, hl, if_false, Bool.false_eq_true]
      by_cases ha : hasAsAlias (String.mk (pyStripWs e.data))
      · simpa [ha] using he1
      · simp only [ha, if_false, Bool.false_eq_true, String.data_append,
          List.mem_append]
        push_neg
        exact ⟨⟨he1, by decide⟩, hm⟩

/-- C5, witness: a raw token with a semicolon yields a semicolon-free
expression under the empty catalog. -/
theorem C5_semicolon_stripping_witness :
    ';' ∉ (_resolve_metric_expr "TOTAL_RIESGO;DROP" []).1.data :=
  (C5_semicolon_stripping "TOTAL_RIESGO;DROP" []).2 (by simp)

/-- C6: dimension resolution tries, in order, exact match, case-insensitive
match, the static synonym table in listed order, then fuzzy matching (always
enabled); every synonym or fuzzy resolution carries a note, and when nothing
matches it fails with a DimensionNotFound error carrying at most
SUGGESTION_TOP_N suggested close matches. -/
theorem C6_dim_resolution (dim : String) (cols : List String) :
    (dim ∈ cols → _resolve_dim dim cols = .ok (dim, none)) ∧
    (dim ∉ cols → ∀ c, cols.find? (fun x => _ci_equal dim x) = some c →
      _resolve_dim dim cols = .ok (c, none)) ∧
    (dim ∉ cols → cols.find? (fun x => _ci_equal dim x) = none →
      ∀ r, findSynMatch dim ((SYNONYMS.lookup dim).getD []) cols = some r →
        _resolve_dim dim cols = .ok r ∧ r.2.isSome) ∧
    (dim ∉ cols → cols.find? (fun x => _ci_equal dim x) = none →
      findSynMatch dim ((SYNONYMS.lookup dim).getD []) cols = none →
      ∀ s rest, get_close_matches dim cols 1 = s :: rest →
        _resolve_dim dim cols =
          .ok (s, some ("Dimensión " ++ aq dim ++ " auto-resuelta a " ++
            aq s ++ " (closest match)."))) ∧
    (dim ∉ cols → cols.find? (fun x => _ci_equal dim x) = none →
      findSynMatch dim ((SYNONYMS.lookup dim).getD []) cols = none →
      get_close_matches dim cols 1 = [] →
      _resolve_dim dim cols =
        .error (dim, get_close_matches dim cols SUGGESTION_TOP_N) ∧
      (get_close_matches dim cols SUGGESTION_TOP_N).length ≤ SUGGESTION_TOP_N) := by
  refine ⟨?_, ?_, ?_, ?_, ?_⟩
  · intro h
    simp [_resolve_dim, h]
  · intro h c hc
    simp [_resolve_dim, h, hc]
  · intro h hc r hr
    exact ⟨by simp [_resolve_dim, h, hc, hr], findSynMatch_note hr⟩
  · intro h hc hs s rest hgc
    simp [_resolve_dim, h, hc, hs, AUTO_FUZZY_DIM_MATCH, hgc]
  · intro h hc hs hgc
    exact ⟨by simp [_resolve_dim, h, hc, hs, AUTO_FUZZY_DIM_MATCH, hgc],
      get_close_matches_len dim cols SUGGESTION_TOP_N⟩

/-- C6, witness: exact match at a live column. -/
theorem C6_dim_resolution_witness :
    _resolve_dim "MES" ["MES", "TOTAL_RIESGO"] = .ok ("MES", none) :=
  (C6_dim_resolution "MES" ["MES", "TOTAL_RIESGO"]).1 (by decide)

/-- C9: with no explicit ordering and at least one metric, the normalised
ordering defaults to the first metric (its trailing AS-alias removed) in
descending direction, and the assembled ORDER BY fragment renders it as
`column DESC`; an explicit pair is rendered as `column direction`. -/
theorem C9_ordering_default (m : String) (ms : List String) (b d : String) :
    (_normalize_ordering [] (m :: ms) = [⟨stripAsAliasEnd m, "DESC"⟩]) ∧
    (stripAsAliasEnd m ≠ "" →
      orderSqlOf (buildOrderParts (_normalize_ordering [] (m :: ms))) =
        "\nORDER BY " ++ stripAsAliasEnd m ++ " DESC") ∧
    (b ≠ "" → buildOrderParts [⟨b, d⟩] =
      [b ++ " " ++ upperStr (if d = "" then "DESC" else d)]) := by
  refine ⟨rfl, ?_, ?_⟩
  · intro h
    simp only [_normalize_ordering, buildOrderParts, List.filterMap_cons, h,
      if_false, Bool.false_eq_true]
    simp only [h, orderSqlOf, joinSep, if_false]
    have hu : upperStr (if ("DESC" : String) = "" then "DESC" else "DESC") =
        "DESC" := rfl
    rw [hu, ← String.append_assoc, ← String.append_assoc]
    have hsp : (" " : String) ++ "DESC" = " DESC" := rfl
    rw [String.append_assoc ("\nORDER BY " ++ stripAsAliasEnd m), hsp]
  · intro h
    simp [buildOrderParts, h]

/-- C9, witness: the default ordering for `SUM(TOTAL_RIESGO) AS RIESGO`
renders `ORDER BY SUM(TOTAL_RIESGO) DESC`; an explicit `(MES, asc)` pair
renders as `MES ASC`. -/
theorem C9_ordering_default_witness :
    orderSqlOf (buildOrderParts
        (_normalize_ordering [] ["SUM(TOTAL_RIESGO) AS RIESGO"])) =
      "\nORDER BY " ++ stripAsAliasEnd "SUM(TOTAL_RIESGO) AS RIESGO" ++
        " DESC" ∧
    buildOrderParts [⟨"MES", "asc"⟩] =
      ["MES" ++ " " ++ upperStr (if ("asc" : String) = "" then "DESC" else "asc")] :=
  ⟨(C9_ordering_default "SUM(TOTAL_RIESGO) AS RIESGO" [] "MES" "asc").2.1
      (by decide),
   (C9_ordering_default "SUM(TOTAL_RIESGO) AS RIESGO" [] "MES" "asc").2.2
      (by decide)⟩

/-- C10: a filter entry (equality, membership or pattern) whose column
matches no live column, exactly or case-insensitively, is silently dropped:
the builder emits the same WHERE fragments as for the filters with all such
entries removed, raises nothing (it is a total function), and records no
note (it produces only fragments).  In particular a lone unknown-column
equality filter contributes no fragment at all. -/
theorem C10_unknown_filters_dropped (f : Filters) (cols : List String) :
    _build_extra_where f cols = _build_extra_where (dropUnknownFilters f cols) cols ∧
    (∀ col v, colKnown col cols = false →
      _build_extra_where ⟨none, none, [(col, v)], [], [], []⟩ cols = []) := by
  constructor
  · unfold _build_extra_where dropUnknownFilters
    have heq := filterMap_filter_known (fun p => colKnown p.1 cols)
      (fun p => if colKnown p.1 cols then
        some (_quote_ident p.1 ++ " = " ++ _escape_literal p.2)
      else none)
      (fun x hx => by simp [hx]) f.eq
    have hin := filterMap_filter_known
      (fun p : String × Option (List PyLit) => colKnown p.1 cols)
      (fun p => match p.2 with
        | none => none
        | some vs =>
          if colKnown p.1 cols then
            some (_quote_ident p.1 ++ " IN (" ++
              joinSep ", " (vs.map _escape_literal) ++ ")")
          else none)
      (fun x hx => by obtain ⟨x1, x2⟩ := x; cases x2 <;> simp_all) f.inF
    have hlike := filterMap_filter_known (fun p => colKnown p.1 cols)
      (fun p => if colKnown p.1 cols then
        some (_quote_ident p.1 ++ " LIKE " ++ _escape_literal p.2)
      else none)
      (fun x hx => by simp [hx]) f.like
    have hilike := filterMap_filter_known (fun p => colKnown p.1 cols)
      (fun p => if colKnown p.1 cols then
        some ("LOWER(" ++ _quote_ident p.1 ++ ") LIKE LOWER(" ++
          _escape_literal p.2 ++ ")")
      else none)
      (fun x hx => by simp [hx]) f.ilike
    rw [heq, hin, hlike, hilike]
  · intro col v h
    simp [_build_extra_where, h]

/-- C10, witness: an equality filter on an unknown column is dropped. -/
theorem C10_unknown_filters_dropped_witness :
    _build_extra_where ⟨none, none, [("NO_EXISTE", .int 3)], [], [], []⟩
        ["MES", "TOTAL_RIESGO"] = [] :=
  (C10_unknown_filters_dropped
      ⟨none, none, [("NO_EXISTE", .int 3)], [], [], []⟩
      ["MES", "TOTAL_RIESGO"]).2 "NO_EXISTE" (.int 3) (by decide)

theorem infix_data_left {x y : String} (z : String) (h : x.data <:+: y.data) :
    x.data <:+: (z ++ y).data := by
  rw [String.data_append]
  exact h.trans ⟨z.data, [], by simp⟩

theorem infix_data_right {x y : String} (z : String) (h : x.data <:+: y.data) :
    x.data <:+: (y ++ z).data := by
  rw [String.data_append]
  exact h.trans ⟨[], z.data, by simp⟩

/-- Shape facts about the assembled statement: it starts with SELECT,
contains the resolved table after FROM, and ends with the LIMIT clause. -/
theorem sqlShapeFacts (selectSql tbl whereSql groupSql orderSql : String)
    (lim : Int) :
    ("SELECT".data <:+: ("SELECT\n  " ++ selectSql ++ "\nFROM " ++ tbl ++
      whereSql ++ groupSql ++ orderSql ++ ("\nLIMIT " ++ toString lim)).data) ∧
    (tbl.data <:+: ("SELECT\n  " ++ selectSql ++ "\nFROM " ++ tbl ++
      whereSql ++ groupSql ++ orderSql ++ ("\nLIMIT " ++ toString lim)).data) ∧
    (("\nLIMIT " ++ toString lim).data <:+: ("SELECT\n  " ++ selectSql ++
      "\nFROM " ++ tbl ++ whereSql ++ groupSql ++ orderSql ++
      ("\nLIMIT " ++ toString lim)).data) := by
  refine ⟨?_, ?_, ?_⟩
  · refine infix_data_right _ ?_
    refine infix_data_right _ ?_
    refine infix_data_right _ ?_
    refine infix_data_right _ ?_
    refine infix_data_right _ ?_
    refine infix_data_right _ ?_
    refine infix_data_right _ ?_
    exact show "SELECT".data <:+: ("SELECT\n  " : String).data by decide
  · refine infix_data_right _ ?_
    refine infix_data_right _ ?_
    refine infix_data_right _ ?_
    refine infix_data_right _ ?_
    exact infix_data_left _ (List.infix_refl _)
  · exact infix_data_left _ (List.infix_refl _)

/-- C3 (counterexample): a valid intent carrying limit 5000 builds
successfully, and the statement's LIMIT clause is 5000, which exceeds the
configured maximum LIMIT_DEFAULT = 200 — the claim that the LIMIT value is
always ≤ the configured maximum is false. -/
theorem C3_counterexample :
    build_sql_from_plan 2024 c3plan none ["TOTAL_RIESGO"] [] =
      .ok (buildOk (build_sql_from_plan 2024 c3plan none ["TOTAL_RIESGO"] [])) ∧
    (buildOk (build_sql_from_plan 2024 c3plan none ["TOTAL_RIESGO"] [])).limit =
      5000 ∧
    isSubChain "\nLIMIT 5000".data
      (buildOk (build_sql_from_plan 2024 c3plan none ["TOTAL_RIESGO"] [])).sql.data =
      true ∧
    ¬((buildOk (build_sql_from_plan 2024 c3plan none ["TOTAL_RIESGO"] [])).limit ≤
      LIMIT_DEFAULT) := by
  refine ⟨rfl, rfl, by decide, by decide⟩

/-- C3 (amended): every successful build yields a statement containing
SELECT, the resolved table identifier, and a LIMIT clause whose numeric value
is the intent's limit when that is non-zero, else the configured default —
the value is not capped to the configured maximum. -/
theorem C3_amended (cy : Int) (plan : Plan) (tf : Option String)
    (cols : List String) (cfg : List (String × String)) (r : SqlBuildResult)
    (h : build_sql_from_plan cy plan tf cols cfg = .ok r) :
    ("SELECT".data <:+: r.sql.data) ∧
    (r.used_table.data <:+: r.sql.data) ∧
    (("\nLIMIT " ++ toString r.limit).data <:+: r.sql.data) ∧
    r.limit = (if plan.limit ≠ 0 then plan.limit else LIMIT_DEFAULT) := by
  revert h
  unfold build_sql_from_plan
  cases hd : resolveDims plan.dimensions cols with
  | error e => intro h; exact absurd h (by simp)
  | ok pd =>
    obtain ⟨dims, dn⟩ := pd
    cases hmet : resolveMetrics plan.metrics cfg cols with
    | error e => intro h; exact absurd h (by simp)
    | ok pm =>
      obtain ⟨mets, mn⟩ := pm
      by_cases hde : (dims.isEmpty && mets.isEmpty) = true
      · simp only [hde, if_true]
        intro h
        exact absurd h (by simp)
      · simp only [hde, if_false, Bool.false_eq_true]
        cases hmes : _build_mes_filter cy plan.filters.mes with
        | error e => intro h; exact absurd h (by simp)
        | ok mesF =>
          intro h
          simp only [Except.ok.injEq] at h
          subst h
          refine ⟨?_, ?_, ?_, rfl⟩
          · exact (sqlShapeFacts _ _ _ _ _ _).1
          · exact (sqlShapeFacts _ _ _ _ _ _).2.1
          · exact (sqlShapeFacts _ _ _ _ _ _).2.2

/-- C3 amended, witness: concrete application at the limit-5000 plan. -/
theorem C3_amended_witness :
    ("SELECT".data <:+:
      (buildOk (build_sql_from_plan 2024 c3plan none ["TOTAL_RIESGO"] [])).sql.data) ∧
    ((buildOk (build_sql_from_plan 2024 c3plan none ["TOTAL_RIESGO"] [])).limit =
      if c3plan.limit ≠ 0 then c3plan.limit else LIMIT_DEFAULT) :=
  ⟨(C3_amended 2024 c3plan none ["TOTAL_RIESGO"] []
      (buildOk (build_sql_from_plan 2024 c3plan none ["TOTAL_RIESGO"] [])) rfl).1,
   (C3_amended 2024 c3plan none ["TOTAL_RIESGO"] []
      (buildOk (build_sql_from_plan 2024 c3plan none ["TOTAL_RIESGO"] [])) rfl).2.2.2⟩

/-- C2 (counterexample): with a known maximum period, a cost-rejected query
whose narrowed retry is also cost-rejected makes `answer` propagate the
*narrowed* query's cost error (message B), not the original one (message A) —
so the claim that the original cost error propagates unmodified is false. -/
theorem C2_counterexample :
    c2exec c2sql = .error (.costly "A") ∧
    answer_fallback c2exec (some 202403) c2sql = .error (.costly "B") ∧
    (ExecErr.costly "B") ≠ (ExecErr.costly "A") := by
  refine ⟨rfl, ?_, by decide⟩
  rfl

/-- C2 (amended): on a cost rejection the controller retries exactly once
with the narrowed statement (the recognized BETWEEN range replaced by an
equality on the maximum period); if the retry is also rejected, that second
error propagates and no further fallback is attempted; if no maximum period
is available, the original cost error propagates unmodified; a non-cost
refusal or a success triggers no fallback. -/
theorem C2_amended {α : Type} (exec : String → Except ExecErr α)
    (lastMes : Option Int) (sql : String) :
    (∀ r, exec sql = .ok r →
      answer_fallback exec lastMes sql = .ok (r, sql, [])) ∧
    (∀ m, exec sql = .error (.other m) →
      answer_fallback exec lastMes sql = .error (.other m)) ∧
    (∀ m, exec sql = .error (.costly m) → lastMesTruthy lastMes = false →
      answer_fallback exec lastMes sql = .error (.costly m)) ∧
    (∀ m lm, exec sql = .error (.costly m) → lastMes = some lm → lm ≠ 0 →
      (∀ r, exec (fallbackSql sql lm) = .ok r →
        answer_fallback exec lastMes sql =
          .ok (r, fallbackSql sql lm,
            ["Consulta costosa (" ++ m ++ "). Fallback a un solo MES=" ++
              toString lm ++ "."])) ∧
      (∀ e2, exec (fallbackSql sql lm) = .error e2 →
        answer_fallback exec lastMes sql = .error e2)) ∧
    (hasMesRange sql.data = true → ∀ lm : Int,
      fallbackSql sql lm = subMesRange sql lm) := by
  refine ⟨?_, ?_, ?_, ?_, ?_⟩
  · intro r h
    simp [answer_fallback, h]
  · intro m h
    simp [answer_fallback, h]
  · intro m h hl
    cases lastMes with
    | none => simp [answer_fallback, h]
    | some lm =>
      have : lm = 0 := by
        by_contra hne
        simp [lastMesTruthy, hne] at hl
      subst this
      simp [answer_fallback, h]
  · intro m lm h hlm hne
    subst hlm
    constructor
    · intro r hr
      simp [answer_fallback, h, hne, hr]
    · intro e2 he2
      simp [answer_fallback, h, hne, he2]
  · intro hr lm
    simp [fallbackSql, hr]

/-- C2 amended, witness: concrete application at the cost-rejected query —
the second rejection (message B) propagates, and the fallback statement is
the BETWEEN range replaced by the equality on the maximum period 202403. -/
theorem C2_amended_witness :
    answer_fallback c2exec (some 202403) c2sql = .error (.costly "B") ∧
    fallbackSql c2sql 202403 = subMesRange c2sql 202403 :=
  ⟨((C2_amended c2exec (some 202403) c2sql).2.2.2.1 "A" 202403 rfl rfl
      (by decide)).2 (.costly "B") (by rfl),
   (C2_amended c2exec (some 202403) c2sql).2.2.2.2 (by rfl) 202403⟩

end Labia
